import Mathlib

/-!
Verification of the Photo_geolocation hypothesis-aggregation core.

The definitions below are a shallow embedding of the Python source:
* `app/services/geolocation_service.py` — filtering, ranking, the process_image pipeline;
* `app/services/geocoding_service.py` — deduplication and the geocode_text_list tail;
* `app/services/vision_service.py` — landmark detection with pydantic validation;
* `app/utils/cache.py` — the two-tier cache manager;
* `app/models/schemas.py` — the data model.

Python floats are modelled as rationals (ℚ); provider calls, the geodesic
distance function and the SHA-256 digest are external library calls and are
modelled as explicit function parameters, so every theorem quantifies over
them.  Python exceptions are modelled with `Except`; the in-process cache
dict is an association list.
-/

namespace PhotoGeo

/-- `DataSource` enum from `app/models/schemas.py`. -/
inductive DataSource where
  | EXIF_GPS
  | LANDMARK_DETECTION
  | OCR_GEOCODING
  | REVERSE_GEOCODING
deriving DecidableEq, Repr

/-- `LocationHypothesis` pydantic model from `app/models/schemas.py`
(descriptive fields kept; the pydantic range constraints on the fields are
stated as hypotheses where a theorem needs them, and enforced by
`mkLocationHypothesis` where the source constructs a hypothesis from
unvalidated provider data). -/
structure LocationHypothesis where
  latitude : ℚ
  longitude : ℚ
  confidence : ℚ
  source : DataSource
  description : Option String := none
  address : Option String := none
  landmark_name : Option String := none
  country : Option String := none
  locality : Option String := none
deriving DecidableEq, Repr

/-- The `source_weights` dict of `GeolocationService._rank_hypotheses`
(geolocation_service.py lines 215-220).  All four enum members are keys, so
the `.get(source, 0.5)` default is unreachable. -/
def source_weights : DataSource → ℚ
  | .EXIF_GPS => 1
  | .LANDMARK_DETECTION => 9/10
  | .OCR_GEOCODING => 7/10
  | .REVERSE_GEOCODING => 8/10

/-- The weighting loop body of `_rank_hypotheses` (lines 222-225):
`hypothesis.confidence = min(1.0, base_confidence * source_weight)`. -/
def applySourceWeight (h : LocationHypothesis) : LocationHypothesis :=
  { h with confidence := min 1 (h.confidence * source_weights h.source) }

/-- The great-circle distance `GeoUtils.calculate_distance` is a geopy
library call; the embedding passes it as a parameter
(arguments: lat1 lon1 lat2 lon2, result in kilometres). -/
abbrev Dist := ℚ → ℚ → ℚ → ℚ → ℚ

/-- The inner loop of the spatial-agreement pass (lines 228-237): the number
of indices `j ≠ i` whose hypothesis is strictly closer than 50 km to `h`. -/
def nearby_count (dist : Dist) (hs : List LocationHypothesis) (i : ℕ)
    (h : LocationHypothesis) : ℕ :=
  (hs.enum.filter (fun p =>
    decide (p.1 ≠ i) &&
    decide (dist h.latitude h.longitude p.2.latitude p.2.longitude < 50))).length

/-- The boost applied to the hypothesis at index `i` (lines 239-241):
`boost = min(0.1, nearby_count * 0.02)`, added and clamped at 1.0, only when
`nearby_count > 0`. -/
def boostOne (dist : Dist) (hs : List LocationHypothesis) (i : ℕ)
    (h : LocationHypothesis) : LocationHypothesis :=
  let n := nearby_count dist hs i h
  if 0 < n then
    { h with confidence := min 1 (h.confidence + min (1/10) ((n : ℚ) * (2/100))) }
  else h

/-- The spatial-agreement pass over the whole (already weighted) list,
guarded by `len(hypotheses) > 1` (line 227). -/
def applyBoost (dist : Dist) (hs : List LocationHypothesis) :
    List LocationHypothesis :=
  if 1 < hs.length then hs.enum.map (fun p => boostOne dist hs p.1 p.2) else hs

/-- Ordering of the final `sorted(..., key=lambda x: x.confidence,
reverse=True)` (line 243): descending by confidence. -/
def confGe (a b : LocationHypothesis) : Prop :=
  b.confidence ≤ a.confidence

instance : DecidableRel confGe :=
  fun a b => inferInstanceAs (Decidable (b.confidence ≤ a.confidence))

instance : IsTotal LocationHypothesis confGe :=
  ⟨fun a b => le_total b.confidence a.confidence⟩

instance : IsTrans LocationHypothesis confGe :=
  ⟨fun _ _ _ h h' => le_trans h' h⟩

/-- `GeolocationService._rank_hypotheses` (lines 207-243): early return on
the empty list, in-place source weighting, spatial-agreement boost, then a
stable descending sort by confidence.  CPython's `sorted` is a stable sort;
`List.insertionSort` with the non-strict descending order `confGe` is also
stable (an element is inserted before exactly the elements of strictly
smaller confidence among those after it), so the two agree on every
input. -/
def rank_hypotheses (dist : Dist) (hs : List LocationHypothesis) :
    List LocationHypothesis :=
  if hs.isEmpty then []
  else List.insertionSort confGe (applyBoost dist (hs.map applySourceWeight))

/-- `GeolocationService._filter_hypotheses` (lines 200-205):
`[h for h in hypotheses if h.confidence >= min_confidence]`. -/
def filter_hypotheses (hs : List LocationHypothesis) (min_confidence : ℚ) :
    List LocationHypothesis :=
  hs.filter (fun h => decide (min_confidence ≤ h.confidence))

/-- Lines 102-105 of `process_image`: filter the raw candidates, rank the
survivors, truncate to `request.max_results`.  Note the order: the
confidence filter runs on provider-native confidences, before the ranking
pass applies weighting and boost. -/
def aggregate_pipeline (dist : Dist) (cands : List LocationHypothesis)
    (min_confidence : ℚ) (max_results : ℕ) : List LocationHypothesis :=
  (rank_hypotheses dist (filter_hypotheses cands min_confidence)).take max_results

/-- Rounding to 4 decimal places, `round(x, 4)` of
`GeocodingService._deduplicate_hypotheses` (geocoding_service.py lines
273-284). -/
def round4 (q : ℚ) : ℚ :=
  (round (q * 10000) : ℚ) / 10000

/-- The duplicate key `(round(latitude, 4), round(longitude, 4))`. -/
def coord_key (h : LocationHypothesis) : ℚ × ℚ :=
  (round4 h.latitude, round4 h.longitude)

/-- The loop of `_deduplicate_hypotheses`, carrying the `seen` set of keys:
a hypothesis is kept exactly when its key has not been seen before. -/
def dedupGo (seen : List (ℚ × ℚ)) : List LocationHypothesis → List LocationHypothesis
  | [] => []
  | h :: rest =>
    if coord_key h ∈ seen then dedupGo seen rest
    else h :: dedupGo (coord_key h :: seen) rest

/-- `GeocodingService._deduplicate_hypotheses`: keep the first-seen
hypothesis per rounded-coordinate key. -/
def deduplicate_hypotheses (hs : List LocationHypothesis) : List LocationHypothesis :=
  dedupGo [] hs

/-- The tail of `GeocodingService.geocode_text_list` (lines 65-68): the raw
hypotheses collected from the forward-geocoding providers are deduplicated,
stable-sorted descending by confidence, and truncated to 10.  The provider
fan-out that produces the raw list is external I/O and is abstracted into the
argument. -/
def geocode_text_list (raw : List LocationHypothesis) : List LocationHypothesis :=
  (List.insertionSort confGe (deduplicate_hypotheses raw)).take 10

/-- `ProcessingMode` enum from `app/models/schemas.py`. -/
inductive ProcessingMode where
  | FAST
  | STANDARD
  | COMPREHENSIVE
deriving DecidableEq, Repr

/-- `GeolocationService._process_objects` (lines 265-278): the loop body is
`pass`, so the accumulator list is returned unchanged — the object-detection
path never produces a hypothesis. -/
def process_objects (_objs : List String) : List LocationHypothesis :=
  []

/-- The candidate-collection phase of `process_image` (lines 70-100): EXIF
hypotheses, then (when the vision client is available) landmark hypotheses,
then (in standard/comprehensive mode) the geocoding-service output, then (in
comprehensive mode) the object-detection output.  Only the geocoding-service
candidates pass through deduplication. -/
def collect_candidates (mode : ProcessingMode) (visionAvailable : Bool)
    (exif landmarks geoRaw : List LocationHypothesis) (objs : List String) :
    List LocationHypothesis :=
  let l2 := if visionAvailable then exif ++ landmarks else exif
  let l3 :=
    if visionAvailable ∧ (mode = .STANDARD ∨ mode = .COMPREHENSIVE) then
      l2 ++ geocode_text_list geoRaw
    else l2
  if mode = .COMPREHENSIVE ∧ visionAvailable then l3 ++ process_objects objs else l3

/-- The pydantic Field range constraints of `LocationHypothesis`
(schemas.py lines 22-24): latitude in [-90,90], longitude in [-180,180],
confidence in [0,1]. -/
def hypOk (lat lon conf : ℚ) : Bool :=
  decide (-90 ≤ lat) && decide (lat ≤ 90) && decide (-180 ≤ lon) &&
    decide (lon ≤ 180) && decide (0 ≤ conf) && decide (conf ≤ 1)

/-- Constructing a `LocationHypothesis(...)`: pydantic raises a
ValidationError (modelled as `Except.error`) when a field violates its range
constraint. -/
def mkLocationHypothesis (lat lon conf : ℚ) (src : DataSource)
    (desc lname addr : Option String) : Except String LocationHypothesis :=
  if hypOk lat lon conf then
    .ok { latitude := lat, longitude := lon, confidence := conf, source := src,
          description := desc, landmark_name := lname, address := addr }
  else .error "ValidationError"

/-- One `location.lat_lng` entry of a landmark returned by the Vision API. -/
structure LandmarkLoc where
  latitude : ℚ
  longitude : ℚ
deriving DecidableEq, Repr

/-- One landmark of a Vision API landmark-detection response. -/
structure Landmark where
  score : ℚ
  description : String
  locations : List LandmarkLoc
deriving DecidableEq, Repr

/-- The inner loop of `VisionService.detect_landmarks` over
`landmark.locations` (vision_service.py lines 53-62): each location becomes a
`LocationHypothesis`; a pydantic ValidationError aborts the whole loop. -/
def landmarksGoLoc (lm : Landmark) :
    List LandmarkLoc → Except String (List LocationHypothesis)
  | [] => .ok []
  | loc :: rest =>
    match mkLocationHypothesis loc.latitude loc.longitude lm.score
        .LANDMARK_DETECTION (some (String.append "Landmark: " lm.description))
        (some lm.description) none with
    | .error e => .error e
    | .ok h =>
      match landmarksGoLoc lm rest with
      | .error e => .error e
      | .ok hs => .ok (h :: hs)

/-- The outer loop of `detect_landmarks` over `landmark_annotations`
(lines 51-62): only landmarks with `score >= landmark_confidence_threshold`
contribute; an exception anywhere aborts the whole loop. -/
def landmarksGo (threshold : ℚ) :
    List Landmark → Except String (List LocationHypothesis)
  | [] => .ok []
  | lm :: rest =>
    if threshold ≤ lm.score then
      match landmarksGoLoc lm lm.locations with
      | .error e => .error e
      | .ok hs =>
        match landmarksGo threshold rest with
        | .error e => .error e
        | .ok hs' => .ok (hs ++ hs')
    else landmarksGo threshold rest

/-- `VisionService.detect_landmarks` (lines 34-69): the whole loop runs
inside one `try`, and the `except` handler returns the empty list — so a
single invalid candidate discards the entire provider response. -/
def detect_landmarks (threshold : ℚ) (lms : List Landmark) :
    List LocationHypothesis :=
  match landmarksGo threshold lms with
  | .ok hs => hs
  | .error _ => []

/-- `GeoUtils.validate_coordinates` (geo_utils.py lines 40-53) restricted to
numeric input: latitude in [-90,90], longitude in [-180,180]. -/
def validate_coordinates (lat lon : ℚ) : Bool :=
  decide (-90 ≤ lat) && decide (lat ≤ 90) && decide (-180 ≤ lon) && decide (lon ≤ 180)

/-- One entry of a LocationIQ search response. -/
structure LIQResult where
  lat : ℚ
  lon : ℚ
  importance : ℚ
  display_name : String
deriving DecidableEq, Repr

/-- The result loop of `GeocodingService._geocode_locationiq`
(geocoding_service.py lines 163-183): each entry is guarded by
`validate_coordinates` before the hypothesis is constructed, so an
out-of-range entry is skipped individually. -/
def liqGo : List LIQResult → Except String (List LocationHypothesis)
  | [] => .ok []
  | r :: rest =>
    if validate_coordinates r.lat r.lon then
      match mkLocationHypothesis r.lat r.lon r.importance .OCR_GEOCODING
          (some r.display_name) none (some r.display_name) with
      | .error e => .error e
      | .ok h =>
        match liqGo rest with
        | .error e => .error e
        | .ok hs => .ok (h :: hs)
    else liqGo rest

/-- `GeocodingService._geocode_locationiq`: an exception returns `[]`. -/
def geocode_locationiq (rs : List LIQResult) : List LocationHypothesis :=
  match liqGo rs with
  | .ok hs => hs
  | .error _ => []

/-! ### Basic lemmas about the ranking stages -/

theorem source_weights_nonneg (s : DataSource) : 0 ≤ source_weights s := by
  cases s <;> norm_num [source_weights]

theorem applySourceWeight_confidence_le_one (h : LocationHypothesis) :
    (applySourceWeight h).confidence ≤ 1 :=
  min_le_left _ _

theorem applySourceWeight_confidence_nonneg {h : LocationHypothesis}
    (hc : 0 ≤ h.confidence) : 0 ≤ (applySourceWeight h).confidence := by
  unfold applySourceWeight
  exact le_min (by norm_num) (mul_nonneg hc (source_weights_nonneg h.source))

theorem boostOne_latitude (dist : Dist) (hs : List LocationHypothesis) (i : ℕ)
    (h : LocationHypothesis) : (boostOne dist hs i h).latitude = h.latitude := by
  unfold boostOne; dsimp only; split <;> rfl

theorem boostOne_longitude (dist : Dist) (hs : List LocationHypothesis) (i : ℕ)
    (h : LocationHypothesis) : (boostOne dist hs i h).longitude = h.longitude := by
  unfold boostOne; dsimp only; split <;> rfl

theorem boostOne_source (dist : Dist) (hs : List LocationHypothesis) (i : ℕ)
    (h : LocationHypothesis) : (boostOne dist hs i h).source = h.source := by
  unfold boostOne; dsimp only; split <;> rfl

theorem boostOne_confidence_le_one {h : LocationHypothesis} (dist : Dist)
    (hs : List LocationHypothesis) (i : ℕ) (hc : h.confidence ≤ 1) :
    (boostOne dist hs i h).confidence ≤ 1 := by
  unfold boostOne; dsimp only; split
  · exact min_le_left _ _
  · exact hc

theorem mem_applyBoost {dist : Dist} {ws : List LocationHypothesis}
    {h : LocationHypothesis} (hm : h ∈ applyBoost dist ws) :
    ∃ w ∈ ws, h.latitude = w.latitude ∧ h.longitude = w.longitude ∧
      h.source = w.source ∧ (w.confidence ≤ 1 → h.confidence ≤ 1) := by
  unfold applyBoost at hm
  split at hm
  · obtain ⟨p, hp, rfl⟩ := List.mem_map.1 hm
    exact ⟨p.2, List.snd_mem_of_mem_enumFrom hp, boostOne_latitude _ _ _ _,
      boostOne_longitude _ _ _ _, boostOne_source _ _ _ _,
      fun hc => boostOne_confidence_le_one dist ws p.1 hc⟩
  · exact ⟨h, hm, rfl, rfl, rfl, fun hc => hc⟩

theorem mem_rank_hypotheses {dist : Dist} {hs : List LocationHypothesis}
    {h : LocationHypothesis} (hm : h ∈ rank_hypotheses dist hs) :
    ∃ h₀ ∈ hs, h.latitude = h₀.latitude ∧ h.longitude = h₀.longitude ∧
      h.source = h₀.source ∧ h.confidence ≤ 1 := by
  unfold rank_hypotheses at hm
  split at hm
  · cases hm
  · have hm' : h ∈ applyBoost dist (hs.map applySourceWeight) :=
      (List.mem_insertionSort confGe).1 hm
    obtain ⟨w, hw, hlat, hlon, hsrc, hc⟩ := mem_applyBoost hm'
    obtain ⟨h₀, hh₀, rfl⟩ := List.mem_map.1 hw
    exact ⟨h₀, hh₀, hlat, hlon, hsrc, hc (applySourceWeight_confidence_le_one h₀)⟩

theorem mem_filter_hypotheses {hs : List LocationHypothesis} {m : ℚ}
    {h : LocationHypothesis} :
    h ∈ filter_hypotheses hs m ↔ h ∈ hs ∧ m ≤ h.confidence := by
  simp [filter_hypotheses]

theorem mem_aggregate_pipeline {dist : Dist} {cands : List LocationHypothesis}
    {m : ℚ} {k : ℕ} {h : LocationHypothesis}
    (hm : h ∈ aggregate_pipeline dist cands m k) :
    ∃ h₀ ∈ cands, m ≤ h₀.confidence ∧ h.latitude = h₀.latitude ∧
      h.longitude = h₀.longitude ∧ h.source = h₀.source ∧ h.confidence ≤ 1 := by
  have hr : h ∈ rank_hypotheses dist (filter_hypotheses cands m) :=
    (List.take_sublist _ _).mem hm
  obtain ⟨h₀, hh₀, hlat, hlon, hsrc, hc⟩ := mem_rank_hypotheses hr
  obtain ⟨hmem, hconf⟩ := mem_filter_hypotheses.1 hh₀
  exact ⟨h₀, hmem, hconf, hlat, hlon, hsrc, hc⟩

/-! ### Concrete inputs used by witnesses and counterexamples -/

/-- A concrete distance function placing every pair 100 km apart (no pair is
within the 50 km agreement radius). -/
def dist0 : Dist := fun _ _ _ _ => 100

/-- A concrete distance function placing every pair 10 km apart (every pair
is within the 50 km agreement radius). -/
def dist10 : Dist := fun _ _ _ _ => 10

def wExifOne : LocationHypothesis :=
  { latitude := 48, longitude := 2, confidence := 1, source := .EXIF_GPS }

def wOcrOne : LocationHypothesis :=
  { latitude := 0, longitude := 0, confidence := 1, source := .OCR_GEOCODING }

def cEx : LocationHypothesis :=
  { latitude := 0, longitude := 0, confidence := 4/5, source := .OCR_GEOCODING }

def hOcr : LocationHypothesis :=
  { latitude := 0, longitude := 0, confidence := 1, source := .OCR_GEOCODING }

def hLm : LocationHypothesis :=
  { latitude := 10, longitude := 10, confidence := 7/9, source := .LANDMARK_DETECTION }

def hOcrW : LocationHypothesis :=
  { latitude := 0, longitude := 0, confidence := 7/10, source := .OCR_GEOCODING }

def hLmW : LocationHypothesis :=
  { latitude := 10, longitude := 10, confidence := 7/10, source := .LANDMARK_DETECTION }

/-! ### C1 — source reliability weighting -/

/-- C1: every candidate entering ranking has its confidence multiplied by the
fixed per-source weight (EXIF_GPS=1, LANDMARK_DETECTION=0.9,
REVERSE_GEOCODING=0.8, OCR_GEOCODING=0.7) and clamped into [0,1]; a raw
confidence-1 EXIF_GPS candidate with no nearby agreement ends at confidence 1
(ranking it alone leaves it unchanged), and a raw confidence-1 OCR_GEOCODING
candidate leaves the weighting stage at confidence 0.7. -/
theorem C1_source_weighting (h : LocationHypothesis) (dist : Dist) :
    (source_weights .EXIF_GPS = 1 ∧ source_weights .LANDMARK_DETECTION = 9/10 ∧
      source_weights .REVERSE_GEOCODING = 8/10 ∧
      source_weights .OCR_GEOCODING = 7/10) ∧
    (0 ≤ h.confidence →
      0 ≤ (applySourceWeight h).confidence ∧ (applySourceWeight h).confidence ≤ 1) ∧
    (h.confidence = 1 → h.source = .EXIF_GPS → rank_hypotheses dist [h] = [h]) ∧
    (h.confidence = 1 → h.source = .OCR_GEOCODING →
      (applySourceWeight h).confidence = 7/10) := by
  refine ⟨⟨rfl, rfl, rfl, rfl⟩, ?_, ?_, ?_⟩
  · intro hc
    exact ⟨applySourceWeight_confidence_nonneg hc, applySourceWeight_confidence_le_one h⟩
  · intro hc hsrc
    have hw : applySourceWeight h = h := by
      unfold applySourceWeight
      rw [hc, hsrc]
      cases h
      simp_all [source_weights]
    unfold rank_hypotheses applyBoost
    simp [hw, List.insertionSort, List.orderedInsert]
  · intro hc hsrc
    unfold applySourceWeight
    rw [hc, hsrc]
    norm_num [source_weights]

/-- Witness for C1 at the concrete inputs `wExifOne` (EXIF, raw confidence 1,
ranked alone) and `wOcrOne` (OCR, raw confidence 1). -/
theorem C1_source_weighting_witness :
    rank_hypotheses dist0 [wExifOne] = [wExifOne] ∧
      (applySourceWeight wOcrOne).confidence = 7/10 :=
  ⟨(C1_source_weighting wExifOne dist0).2.2.1 rfl rfl,
   (C1_source_weighting wOcrOne dist0).2.2.2 rfl rfl⟩

/-! ### C3 — spatial-agreement boost never pushes confidence above 1 -/

/-- C3: whatever the distance function reports and however many nearby
agreeing hypotheses exist, every hypothesis produced by the ranking pass
(and hence every hypothesis of the final truncated output) has confidence at
most 1. -/
theorem C3_boost_cap (dist : Dist) (cands : List LocationHypothesis) (m : ℚ)
    (k : ℕ) (h : LocationHypothesis) :
    (h ∈ rank_hypotheses dist cands → h.confidence ≤ 1) ∧
    (h ∈ aggregate_pipeline dist cands m k → h.confidence ≤ 1) := by
  constructor
  · intro hm
    obtain ⟨_, _, _, _, _, hc⟩ := mem_rank_hypotheses hm
    exact hc
  · intro hm
    obtain ⟨_, _, _, _, _, _, hc⟩ := mem_aggregate_pipeline hm
    exact hc

/-- Witness for C3: three confidence-1 EXIF hypotheses all within 10 km of
each other — each gets the maximal boost situation, and the first output
hypothesis still has confidence exactly capped at 1. -/
theorem C3_boost_cap_witness :
    wExifOne ∈ rank_hypotheses dist10 [wExifOne, wExifOne, wExifOne] ∧
      wExifOne.confidence ≤ 1 := by
  have hm : wExifOne ∈ rank_hypotheses dist10 [wExifOne, wExifOne, wExifOne] := by
    norm_num [rank_hypotheses, applyBoost, applySourceWeight, boostOne, nearby_count,
      source_weights, dist10, wExifOne, List.insertionSort, List.orderedInsert, confGe,
      List.enum, List.enumFrom, List.filter]
  exact ⟨hm, (C3_boost_cap dist10 [wExifOne, wExifOne, wExifOne] 0 5 wExifOne).1 hm⟩

/-! ### Lemmas about deduplication -/

theorem mem_of_mem_dedupGo {seen : List (ℚ × ℚ)} {l : List LocationHypothesis}
    {h : LocationHypothesis} (hm : h ∈ dedupGo seen l) : h ∈ l := by
  induction l generalizing seen with
  | nil => cases hm
  | cons x rest ih =>
    unfold dedupGo at hm
    split at hm
    · exact List.mem_cons_of_mem x (ih hm)
    · rcases List.mem_cons.1 hm with rfl | hm'
      · exact List.mem_cons_self _ _
      · exact List.mem_cons_of_mem x (ih hm')

theorem dedupGo_find? {seen : List (ℚ × ℚ)} {l : List LocationHypothesis}
    {h : LocationHypothesis} (hm : h ∈ dedupGo seen l) :
    coord_key h ∉ seen ∧
      l.find? (fun x => decide (coord_key x = coord_key h)) = some h := by
  induction l generalizing seen with
  | nil => cases hm
  | cons x rest ih =>
    unfold dedupGo at hm
    split at hm
    case isTrue hseen =>
      obtain ⟨hnot, hfind⟩ := ih hm
      have hne : coord_key x ≠ coord_key h := fun he => hnot (he ▸ hseen)
      exact ⟨hnot, by simp [List.find?_cons, hne, hfind]⟩
    case isFalse hseen =>
      rcases List.mem_cons.1 hm with rfl | hm'
      · exact ⟨hseen, by simp [List.find?_cons]⟩
      · obtain ⟨hnot, hfind⟩ := ih hm'
        have hne : coord_key x ≠ coord_key h := by
          intro he
          exact hnot (by rw [← he]; exact List.mem_cons_self _ _)
        have hnot' : coord_key h ∉ seen := fun hs => hnot (List.mem_cons_of_mem _ hs)
        exact ⟨hnot', by simp [List.find?_cons, hne, hfind]⟩

theorem dedupGo_pairwise (seen : List (ℚ × ℚ)) (l : List LocationHypothesis) :
    (∀ h ∈ dedupGo seen l, coord_key h ∉ seen) ∧
      (dedupGo seen l).Pairwise (fun a b => coord_key a ≠ coord_key b) := by
  induction l generalizing seen with
  | nil => exact ⟨fun h hm => absurd hm (List.not_mem_nil h), List.Pairwise.nil⟩
  | cons x rest ih =>
    unfold dedupGo
    split
    case isTrue hseen => exact ih seen
    case isFalse hseen =>
      obtain ⟨hnot, hpw⟩ := ih (coord_key x :: seen)
      constructor
      · intro h hm
        rcases List.mem_cons.1 hm with rfl | hm'
        · exact hseen
        · exact fun hs => hnot h hm' (List.mem_cons_of_mem _ hs)
      · exact List.Pairwise.cons
          (fun b hb he => hnot b hb (he ▸ List.mem_cons_self _ _)) hpw

/-! ### C4 — deduplication by rounded coordinates -/

def eDup : LocationHypothesis :=
  { latitude := 10, longitude := 20, confidence := 1, source := .EXIF_GPS }

def lDup : LocationHypothesis :=
  { latitude := 10, longitude := 20, confidence := 9/10, source := .LANDMARK_DETECTION }

def g1 : LocationHypothesis :=
  { latitude := 1000001/100000, longitude := 20, confidence := 4/5,
    source := .OCR_GEOCODING, description := some "first provider" }

def g2 : LocationHypothesis :=
  { latitude := 1000002/100000, longitude := 20, confidence := 9/10,
    source := .OCR_GEOCODING, description := some "second provider" }

/-- C4 counterexample: a run whose EXIF candidate and landmark candidate sit
at the identical coordinates returns both of them — their shared
4-decimal-rounded key (10, 20) appears twice in the returned hypothesis list,
because deduplication only ever runs inside the geocoding service, not over
the candidates of the whole run. -/
theorem C4_dedup_counterexample :
    (aggregate_pipeline dist10
        (collect_candidates .STANDARD true [eDup] [lDup] [] []) (1/2) 5).map coord_key =
      [(10, 20), (10, 20)] := by
  norm_num [aggregate_pipeline, collect_candidates, geocode_text_list,
    deduplicate_hypotheses, dedupGo, process_objects, rank_hypotheses,
    filter_hypotheses, applyBoost, applySourceWeight, boostOne, nearby_count,
    source_weights, dist10, eDup, lDup, coord_key, round4, round_eq,
    List.insertionSort, List.orderedInsert, confGe, List.enum, List.enumFrom,
    List.filter]

/-- C4 amended: deduplication by the 4-decimal-rounded (latitude, longitude)
key applies to the geocoding-derived candidates inside
`geocode_text_list` only: there, every retained hypothesis is the first-seen
element of the raw list with its key (kept with its own fields), no two
elements of the deduplicated or returned list share a key, and the returned
list only contains raw input hypotheses.  Candidates of other sources are
never deduplicated. -/
theorem C4_dedup_geocoding (hs : List LocationHypothesis) (h : LocationHypothesis) :
    (deduplicate_hypotheses hs).Pairwise (fun a b => coord_key a ≠ coord_key b) ∧
    (h ∈ deduplicate_hypotheses hs →
      hs.find? (fun x => decide (coord_key x = coord_key h)) = some h) ∧
    (geocode_text_list hs).Pairwise (fun a b => coord_key a ≠ coord_key b) ∧
    (h ∈ geocode_text_list hs → h ∈ hs) := by
  refine ⟨(dedupGo_pairwise [] hs).2, fun hm => (dedupGo_find? hm).2, ?_, ?_⟩
  · have hperm := List.perm_insertionSort confGe (deduplicate_hypotheses hs)
    have hpw := (hperm.pairwise_iff (fun hne he => hne he.symm)).2
      (dedupGo_pairwise [] hs).2
    exact List.Pairwise.sublist (List.take_sublist _ _) hpw
  · intro hm
    have hm' : h ∈ List.insertionSort confGe (deduplicate_hypotheses hs) :=
      (List.take_sublist _ _).mem hm
    exact mem_of_mem_dedupGo ((List.mem_insertionSort confGe).1 hm')

/-- Witness for C4 amended: two OCR candidates 0.00001° apart collapse; the
first-seen one, with its own description, is the one retained. -/
theorem C4_dedup_geocoding_witness :
    g1 ∈ deduplicate_hypotheses [g1, g2] ∧
      [g1, g2].find? (fun x => decide (coord_key x = coord_key g1)) = some g1 ∧
      (geocode_text_list [g1, g2]).Pairwise
        (fun a b => coord_key a ≠ coord_key b) := by
  have hm : g1 ∈ deduplicate_hypotheses [g1, g2] := by
    norm_num [deduplicate_hypotheses, dedupGo, coord_key, round4, g1, g2, round_eq]
  exact ⟨hm, (C4_dedup_geocoding [g1, g2] g1).2.1 hm,
    (C4_dedup_geocoding [g1, g2] g1).2.2.1⟩

/-! ### The two-tier cache manager (`app/utils/cache.py`) -/

/-- One entry of the in-process `memory_cache` dict (cache.py lines 72-75). -/
structure CacheEntry (V : Type) where
  value : V
  expires_at : ℕ
deriving DecidableEq, Repr

/-- The `memory_cache` dict; the newest binding of a key is the first one in
the list. -/
abbrev MemCache (V : Type) := List (String × CacheEntry V)

/-- `self.memory_cache.get(key)`. -/
def memLookup {V : Type} (mem : MemCache V) (key : String) : Option (CacheEntry V) :=
  (mem.find? (fun p => p.1 == key)).map (fun p => p.2)

/-- `self.memory_cache[key] = ...` (dict update). -/
def memSet {V : Type} (mem : MemCache V) (key : String) (e : CacheEntry V) :
    MemCache V :=
  (key, e) :: mem

/-- `del self.memory_cache[key]`. -/
def memDel {V : Type} (mem : MemCache V) (key : String) : MemCache V :=
  mem.filter (fun p => !(p.1 == key))

/-- Outcome of one `redis.get` call: raise, return data, or return nothing
(an unpickling failure of returned data is also modelled as `raises`, since
it is caught by the same handler). -/
inductive RedisGet (V : Type) where
  | raises
  | found (v : V)
  | absent
deriving DecidableEq, Repr

/-- Outcome of one `redis.setex` call. -/
inductive RedisSet where
  | raises
  | ok
deriving DecidableEq, Repr

/-- The durable tier as seen by one CacheManager call.  A `CacheManager`
whose startup connection failed has `redis_client = None`, modelled by
passing `none` for the whole connection. -/
structure RedisConn (V : Type) where
  rget : String → RedisGet V
  rset : String → V → RedisSet

/-- The in-process-tier part of `CacheManager.get` (cache.py lines 52-59):
return the unexpired entry, lazily deleting an expired one. -/
def memGetStep {V : Type} (mem : MemCache V) (now : ℕ) (key : String) :
    Option V × MemCache V :=
  match memLookup mem key with
  | some item =>
    if now < item.expires_at then (some item.value, mem)
    else (none, memDel mem key)
  | none => (none, mem)

/-- `CacheManager.get` (lines 45-62).  The whole body is one `try`: when the
redis call raises, the handler returns `None` directly — the in-process tier
is consulted only when redis is absent or returns no data without raising. -/
def cache_get {V : Type} (redis : Option (RedisConn V)) (mem : MemCache V)
    (now : ℕ) (key : String) : Option V × MemCache V :=
  match redis with
  | some r =>
    match r.rget key with
    | .raises => (none, mem)
    | .found v => (some v, mem)
    | .absent => memGetStep mem now key
  | none => memGetStep mem now key

/-- `ttl = ttl or self.ttl` (line 66): `0` is falsy in Python. -/
def effTtl (ttlArg : Option ℕ) (ttlDefault : ℕ) : ℕ :=
  match ttlArg with
  | some t => if t = 0 then ttlDefault else t
  | none => ttlDefault

/-- `CacheManager.set` (lines 64-80).  The redis write precedes the
in-process write inside the same `try`: when `setex` raises, the handler
returns `False` and the in-process tier is left unwritten. -/
def cache_set {V : Type} (redis : Option (RedisConn V)) (mem : MemCache V)
    (now : ℕ) (ttlArg : Option ℕ) (ttlDefault : ℕ) (key : String) (v : V) :
    Bool × MemCache V :=
  let ttl := effTtl ttlArg ttlDefault
  match redis with
  | some r =>
    match r.rset key v with
    | .raises => (false, mem)
    | .ok => (true, memSet mem key ⟨v, now + ttl⟩)
  | none => (true, memSet mem key ⟨v, now + ttl⟩)

/-- `CacheManager.generate_key` (lines 34-43) on string data: prefix, colon,
first 16 hex characters of the SHA-256 digest.  The digest itself is a
`hashlib` library call, modelled as a function parameter. -/
def generate_key (digest : String → String) (data : String) (pfx : String) :
    String :=
  String.append (String.append pfx ":") ((digest data).take 16)

/-! ### The `process_image` pipeline skeleton (`geolocation_service.py`) -/

/-- `.value` of the `ProcessingMode` enum members. -/
def modeValue : ProcessingMode → String
  | .FAST => "fast"
  | .STANDARD => "standard"
  | .COMPREHENSIVE => "comprehensive"

/-- `GeolocationRequest` from `app/models/schemas.py` (lines 58-63). -/
structure GeolocationRequest where
  mode : ProcessingMode
  min_confidence : ℚ
  max_results : ℕ
  include_metadata : Bool
  include_address : Bool
deriving DecidableEq, Repr

/-- The cacheable part of `GeolocationResponse` (schemas.py lines 66-74).
The random `request_id` and the timestamps are excluded: a cache hit returns
the stored response object wholesale, so result equality is stated on this
content. -/
structure GeolocationResponse where
  success : Bool
  hypotheses : List LocationHypothesis
  best_guess : Option LocationHypothesis
  error_message : Option String
deriving DecidableEq, Repr

/-- A reverse-geocoding lookup result (address fields only). -/
structure RevGeo where
  address : String
  country : Option String
  locality : Option String
deriving DecidableEq, Repr

/-- `GeolocationService._enhance_with_addresses` (lines 245-263): each
hypothesis lacking an address gets one reverse-geocoding lookup; on success
the address fields are filled in, on failure the hypothesis is unchanged. -/
def enhance_with_addresses (reverse : ℚ → ℚ → Option RevGeo)
    (hs : List LocationHypothesis) : List LocationHypothesis :=
  hs.map (fun h =>
    match h.address with
    | some _ => h
    | none =>
      match reverse h.latitude h.longitude with
      | some r =>
        { h with address := some r.address, country := r.country,
                 locality := r.locality }
      | none => h)

/-- The pure library functions used to build the cache key: the SHA-256 hex
digest on strings (`generate_key`), the SHA-256 hex digest over the file
bytes (`ImageProcessor.generate_hash`), and Python's float formatting used
by the f-string.  The key builder receives the image content itself — the
file name and the clock are not inputs. -/
structure HashFns where
  digestS : String → String
  digestB : List ℕ → String
  ratStr : ℚ → String

/-- The cache key of `process_image` (lines 54-57):
`generate_key(f"{content_hash}_{mode.value}_{min_confidence}", "geolocation")`.
Its only inputs are the image bytes, the processing mode and the confidence
floor. -/
def request_cache_key (hf : HashFns) (content : List ℕ)
    (req : GeolocationRequest) : String :=
  generate_key hf.digestS
    (String.append (String.append (String.append (String.append
      (hf.digestB content) "_") (modeValue req.mode)) "_")
      (hf.ratStr req.min_confidence))
    "geolocation"

/-- The per-run environment: provider outputs and the validation verdict.
Everything here may differ between two calls (providers are external and
nondeterministic); the theorems quantify over it. -/
structure RunEnv where
  dist : Dist
  visionAvailable : Bool
  valid : Bool
  errMsg : String
  exif : List LocationHypothesis
  landmarks : List LocationHypothesis
  geoRaw : List LocationHypothesis
  objs : List String
  reverse : ℚ → ℚ → Option RevGeo

/-- The response computed by a cache-missing, successfully-validated run
(lines 70-122): candidate collection, filter/rank/truncate, optional address
enrichment, best guess as the head of the final list. -/
def runResponse (env : RunEnv) (req : GeolocationRequest) : GeolocationResponse :=
  let cands := collect_candidates req.mode env.visionAvailable env.exif
    env.landmarks env.geoRaw env.objs
  let final := aggregate_pipeline env.dist cands req.min_confidence
    req.max_results
  let final' := if req.include_address
    then enhance_with_addresses env.reverse final else final
  { success := true, hypotheses := final', best_guess := final'.head?,
    error_message := none }

/-- The response produced by the `except` handler (lines 134-150) when
`validate_image` failed. -/
def failureResponse (env : RunEnv) : GeolocationResponse :=
  { success := false, hypotheses := [], best_guess := none,
    error_message := some (String.append
      "Error processing image: Invalid image: " env.errMsg) }

/-- `GeolocationService.process_image` (lines 38-150): cache lookup first;
on a miss, image validation (failure is the `except` path producing
`success=false`), then the computing path, and a cache write with TTL 3600.
The returned Bool is `processing_metadata.cache_hit`. -/
def process_image (hf : HashFns) (env : RunEnv) (req : GeolocationRequest)
    (content : List ℕ) (mem : MemCache GeolocationResponse)
    (redis : Option (RedisConn GeolocationResponse)) (now : ℕ) :
    GeolocationResponse × Bool × MemCache GeolocationResponse :=
  let key := request_cache_key hf content req
  match cache_get redis mem now key with
  | (some cached, mem') => (cached, true, mem')
  | (none, mem') =>
    if env.valid then
      (runResponse env req, false,
        (cache_set redis mem' now (some 3600) 3600 key (runResponse env req)).2)
    else
      (failureResponse env, false, mem')

/-! ### Lemmas about provider-side validation -/

theorem landmarksGoLoc_error {lm : Landmark} {locs : List LandmarkLoc}
    (hbad : ∃ loc ∈ locs, hypOk loc.latitude loc.longitude lm.score = false) :
    ∃ e, landmarksGoLoc lm locs = .error e := by
  induction locs with
  | nil => obtain ⟨loc, hm, _⟩ := hbad; cases hm
  | cons l rest ih =>
    obtain ⟨loc, hm, hbadOk⟩ := hbad
    rcases List.mem_cons.1 hm with rfl | hm'
    · exact ⟨"ValidationError", by simp [landmarksGoLoc, mkLocationHypothesis, hbadOk]⟩
    · rcases hmk : mkLocationHypothesis l.latitude l.longitude lm.score
          .LANDMARK_DETECTION (some (String.append "Landmark: " lm.description))
          (some lm.description) none with e | h
      · exact ⟨e, by simp [landmarksGoLoc, hmk]⟩
      · obtain ⟨e, he⟩ := ih ⟨loc, hm', hbadOk⟩
        exact ⟨e, by simp [landmarksGoLoc, hmk, he]⟩

theorem landmarksGo_error {threshold : ℚ} {lms : List Landmark}
    (hbad : ∃ lm ∈ lms, threshold ≤ lm.score ∧
      ∃ loc ∈ lm.locations, hypOk loc.latitude loc.longitude lm.score = false) :
    ∃ e, landmarksGo threshold lms = .error e := by
  induction lms with
  | nil => obtain ⟨lm, hm, _⟩ := hbad; cases hm
  | cons lm rest ih =>
    obtain ⟨lm', hm, hscore, hloc⟩ := hbad
    rcases List.mem_cons.1 hm with rfl | hm'
    · obtain ⟨e, he⟩ := landmarksGoLoc_error hloc
      exact ⟨e, by simp [landmarksGo, hscore, he]⟩
    · by_cases hsc : threshold ≤ lm.score
      · rcases hll : landmarksGoLoc lm lm.locations with e | hs
        · exact ⟨e, by simp [landmarksGo, hsc, hll]⟩
        · obtain ⟨e, he⟩ := ih ⟨lm', hm', hscore, hloc⟩
          exact ⟨e, by simp [landmarksGo, hsc, hll, he]⟩
      · obtain ⟨e, he⟩ := ih ⟨lm', hm', hscore, hloc⟩
        exact ⟨e, by simp [landmarksGo, hsc, he]⟩

/-- The hypothesis `_geocode_locationiq` builds from one valid entry. -/
def liqHyp (r : LIQResult) : LocationHypothesis :=
  { latitude := r.lat, longitude := r.lon, confidence := r.importance,
    source := .OCR_GEOCODING, description := some r.display_name,
    address := some r.display_name }

theorem hypOk_of_valid {lat lon conf : ℚ}
    (hv : validate_coordinates lat lon = true) (h0 : 0 ≤ conf) (h1 : conf ≤ 1) :
    hypOk lat lon conf = true := by
  simp only [validate_coordinates, Bool.and_eq_true, decide_eq_true_eq] at hv
  simp [hypOk, hv.1.1.1, hv.1.1.2, hv.1.2, hv.2, h0, h1]

theorem liqGo_ok {rs : List LIQResult}
    (himp : ∀ r ∈ rs, 0 ≤ r.importance ∧ r.importance ≤ 1) :
    liqGo rs =
      .ok ((rs.filter (fun r => validate_coordinates r.lat r.lon)).map liqHyp) := by
  induction rs with
  | nil => rfl
  | cons r rest ih =>
    have hr := himp r (List.mem_cons_self _ _)
    have hrest := ih (fun x hx => himp x (List.mem_cons_of_mem _ hx))
    by_cases hv : validate_coordinates r.lat r.lon = true
    · have hmk : mkLocationHypothesis r.lat r.lon r.importance .OCR_GEOCODING
          (some r.display_name) none (some r.display_name) = .ok (liqHyp r) := by
        simp [mkLocationHypothesis, hypOk_of_valid hv hr.1 hr.2, liqHyp]
      simp [liqGo, hv, hmk, hrest, List.filter_cons]
    · have hv' : validate_coordinates r.lat r.lon = false := by simp_all
      simp [liqGo, hv', hrest, List.filter_cons]

/-! ### C9 — per-candidate coordinate validation -/

def lmBad : Landmark :=
  { score := 9/10, description := "Bad", locations := [{ latitude := 100, longitude := 0 }] }

def lmGood : Landmark :=
  { score := 9/10, description := "Good", locations := [{ latitude := 10, longitude := 10 }] }

def rBad : LIQResult :=
  { lat := 100, lon := 0, importance := 1/2, display_name := "X" }

def rGood : LIQResult :=
  { lat := 10, lon := 10, importance := 1/2, display_name := "Y" }

/-- C9 counterexample: a landmark response holding one candidate with
out-of-range latitude 100 and one perfectly valid candidate yields `[]` —
the valid candidate of the same provider response is discarded too, because
the pydantic ValidationError aborts the whole `try` block of
`detect_landmarks`.  Alone, the valid candidate would have produced a
hypothesis. -/
theorem C9_validation_counterexample :
    detect_landmarks (1/2) [lmBad, lmGood] = [] ∧
      detect_landmarks (1/2) [lmGood] =
        [{ latitude := 10, longitude := 10, confidence := 9/10,
           source := .LANDMARK_DETECTION,
           description := some (String.append "Landmark: " "Good"),
           landmark_name := some "Good" }] := by
  constructor
  · norm_num [detect_landmarks, landmarksGo, landmarksGoLoc, mkLocationHypothesis,
      hypOk, lmBad, lmGood]
  · norm_num [detect_landmarks, landmarksGo, landmarksGoLoc, mkLocationHypothesis,
      hypOk, lmGood]

/-- C9 amended: an invalid candidate coordinate is discarded alone only in
the LocationIQ geocoder, whose loop guards each entry with
`validate_coordinates`; in landmark detection a single out-of-range candidate
among the above-threshold landmarks discards the entire provider response
(the function returns `[]`), and the run then proceeds with the other
providers' candidates unchanged. -/
theorem C9_per_candidate_validation (threshold : ℚ) (lms : List Landmark)
    (rs : List LIQResult) (exif geoRaw : List LocationHypothesis)
    (objs : List String) :
    ((∃ lm ∈ lms, threshold ≤ lm.score ∧
        ∃ loc ∈ lm.locations, hypOk loc.latitude loc.longitude lm.score = false) →
      detect_landmarks threshold lms = []) ∧
    ((∀ r ∈ rs, 0 ≤ r.importance ∧ r.importance ≤ 1) →
      geocode_locationiq rs =
        (rs.filter (fun r => validate_coordinates r.lat r.lon)).map liqHyp) ∧
    collect_candidates .STANDARD true exif (detect_landmarks threshold lms)
        geoRaw objs =
      exif ++ detect_landmarks threshold lms ++ geocode_text_list geoRaw := by
  refine ⟨?_, ?_, ?_⟩
  · intro hbad
    obtain ⟨e, he⟩ := landmarksGo_error hbad
    simp [detect_landmarks, he]
  · intro himp
    simp [geocode_locationiq, liqGo_ok himp]
  · simp [collect_candidates, List.append_assoc]

/-- Witness for C9 amended at the concrete inputs: the invalid landmark
candidate wipes the landmark response, while the invalid LocationIQ entry is
skipped individually and the valid one survives. -/
theorem C9_per_candidate_validation_witness :
    detect_landmarks (1/2) [lmBad, lmGood] = [] ∧
      geocode_locationiq [rBad, rGood] = [liqHyp rGood] := by
  constructor
  · refine (C9_per_candidate_validation (1/2) [lmBad, lmGood] [] [] [] []).1 ?_
    refine ⟨lmBad, List.mem_cons_self _ _, by norm_num [lmBad], ?_⟩
    exact ⟨{ latitude := 100, longitude := 0 }, by simp [lmBad],
      by norm_num [hypOk, lmBad]⟩
  · have hg := (C9_per_candidate_validation (1/2) [] [rBad, rGood] [] [] []).2.1
      (by intro r hr; rcases List.mem_cons.1 hr with rfl | hr' <;>
        simp_all [rBad, rGood] <;> norm_num)
    rw [hg]
    norm_num [validate_coordinates, rBad, rGood, List.filter]

/-! ### C2 — position of the confidence filter in the pipeline -/

/-- C2 counterexample: an OCR candidate with raw confidence 0.8 against
`min_confidence = 0.6` survives the filter (which runs before weighting) and
then gets weighted down to 0.56 < 0.6, so the final output contains a
hypothesis strictly below the floor — the filter is not applied to the
post-weighting confidence as the claim states. -/
theorem C2_filter_order_counterexample :
    aggregate_pipeline dist0 [cEx] (3/5) 5 = [{ cEx with confidence := 14/25 }] ∧
      (14/25 : ℚ) < 3/5 := by
  constructor
  · norm_num [aggregate_pipeline, rank_hypotheses, filter_hypotheses, applyBoost,
      applySourceWeight, boostOne, nearby_count, source_weights, dist0, cEx,
      List.insertionSort, List.orderedInsert, confGe, List.enum, List.enumFrom,
      List.filter]
  · norm_num

/-- C2 amended: the confidence filter is applied to the provider-native (raw)
confidences before source weighting and boost; its boundary is inclusive
(a hypothesis with confidence exactly `min_confidence` is retained), and
every hypothesis of the final output descends from a raw candidate whose
provider-native confidence was at least `min_confidence`. -/
theorem C2_filter_raw_confidence (dist : Dist) (cands hs : List LocationHypothesis)
    (m : ℚ) (k : ℕ) (h : LocationHypothesis) :
    (h ∈ filter_hypotheses hs m ↔ h ∈ hs ∧ m ≤ h.confidence) ∧
    (h ∈ hs → h.confidence = m → h ∈ filter_hypotheses hs m) ∧
    (h ∈ aggregate_pipeline dist cands m k →
      ∃ h₀ ∈ cands, m ≤ h₀.confidence ∧ h.latitude = h₀.latitude ∧
        h.longitude = h₀.longitude ∧ h.source = h₀.source) := by
  refine ⟨mem_filter_hypotheses, ?_, ?_⟩
  · intro hmem hc
    exact mem_filter_hypotheses.2 ⟨hmem, le_of_eq hc.symm⟩
  · intro hm
    obtain ⟨h₀, hmem, hconf, hlat, hlon, hsrc, _⟩ := mem_aggregate_pipeline hm
    exact ⟨h₀, hmem, hconf, hlat, hlon, hsrc⟩

/-- Witness for C2 amended: the boundary case (a hypothesis whose confidence
equals the floor is kept) and the provenance of the weighted-down output
hypothesis of the counterexample run. -/
theorem C2_filter_raw_confidence_witness :
    cEx ∈ filter_hypotheses [cEx] (4/5) ∧
      (∃ h₀ ∈ [cEx], (3/5 : ℚ) ≤ h₀.confidence ∧
        ({ cEx with confidence := 14/25 } : LocationHypothesis).latitude = h₀.latitude ∧
        ({ cEx with confidence := 14/25 } : LocationHypothesis).longitude = h₀.longitude ∧
        ({ cEx with confidence := 14/25 } : LocationHypothesis).source = h₀.source) := by
  refine ⟨(C2_filter_raw_confidence dist0 [cEx] [cEx] (4/5) 5 cEx).2.1
      (List.mem_singleton.2 rfl) rfl, ?_⟩
  refine (C2_filter_raw_confidence dist0 [cEx] [cEx] (3/5) 5
      { cEx with confidence := 14/25 }).2.2 ?_
  norm_num [aggregate_pipeline, rank_hypotheses, filter_hypotheses, applyBoost,
    applySourceWeight, boostOne, nearby_count, source_weights, dist0, cEx,
    List.insertionSort, List.orderedInsert, confGe, List.enum, List.enumFrom,
    List.filter]

/-! ### C5 — ranking order and truncation -/

/-- C5 counterexample: an OCR hypothesis (raw 1, weighted 0.7) listed before a
landmark hypothesis (raw 7/9, weighted 0.7) is a confidence tie, and the
ranked output keeps the OCR hypothesis first — the tie is not broken by the
source-priority order EXIF_GPS > LANDMARK_DETECTION > REVERSE_GEOCODING >
OCR_GEOCODING, which would have put the landmark hypothesis first. -/
theorem C5_tiebreak_counterexample :
    (rank_hypotheses dist0 [hOcr, hLm]).map (fun h => (h.source, h.confidence)) =
      [(.OCR_GEOCODING, 7/10), (.LANDMARK_DETECTION, 7/10)] := by
  norm_num [rank_hypotheses, applyBoost, applySourceWeight, boostOne, nearby_count,
    source_weights, dist0, hOcr, hLm, List.insertionSort, List.orderedInsert, confGe,
    List.enum, List.enumFrom, List.filter]

/-- C5 amended: the final sequence is sorted descending by final confidence by
a stable sort — equal-confidence hypotheses keep the order in which they left
the boost stage, with no source-priority tiebreak — and is then truncated to
the first `max_results` elements. -/
theorem C5_ranking_stable_sort (dist : Dist) (cands hs : List LocationHypothesis)
    (m : ℚ) (k : ℕ) (a b : LocationHypothesis) :
    (rank_hypotheses dist hs).Sorted confGe ∧
    (rank_hypotheses dist hs).Perm (applyBoost dist (hs.map applySourceWeight)) ∧
    (confGe a b → List.Sublist [a, b] (applyBoost dist (hs.map applySourceWeight)) →
      List.Sublist [a, b] (rank_hypotheses dist hs)) ∧
    aggregate_pipeline dist cands m k =
      (rank_hypotheses dist (filter_hypotheses cands m)).take k ∧
    (aggregate_pipeline dist cands m k).length ≤ k ∧
    (aggregate_pipeline dist cands m k).Sorted confGe := by
  refine ⟨?_, ?_, ?_, rfl, ?_, ?_⟩
  · unfold rank_hypotheses
    split
    · exact List.sorted_nil
    · exact List.sorted_insertionSort confGe _
  · unfold rank_hypotheses
    split
    · have hnil : hs = [] := by simp_all [List.isEmpty_iff]
      subst hnil
      simp [applyBoost]
    · exact List.perm_insertionSort confGe _
  · intro hab hsub
    unfold rank_hypotheses
    split
    · have hnil : hs = [] := by simp_all [List.isEmpty_iff]
      subst hnil
      simp [applyBoost] at hsub
    · exact List.pair_sublist_insertionSort hab hsub
  · exact le_trans (List.length_take_le k _) (le_refl k)
  · unfold aggregate_pipeline
    refine List.Pairwise.sublist (List.take_sublist _ _) ?_
    unfold rank_hypotheses
    split
    · exact List.sorted_nil
    · exact List.sorted_insertionSort confGe _

/-- Witness for C5 amended at the tie scenario of the counterexample: the
equal-confidence pair leaving the boost stage keeps its order in the ranked
output. -/
theorem C5_ranking_stable_sort_witness :
    (rank_hypotheses dist0 [hOcr, hLm]).Sorted confGe ∧
      List.Sublist [hOcrW, hLmW] (rank_hypotheses dist0 [hOcr, hLm]) := by
  have hboost : applyBoost dist0 ([hOcr, hLm].map applySourceWeight) = [hOcrW, hLmW] := by
    norm_num [applyBoost, applySourceWeight, boostOne, nearby_count, source_weights,
      dist0, hOcr, hLm, hOcrW, hLmW, List.enum, List.enumFrom, List.filter]
  refine ⟨(C5_ranking_stable_sort dist0 [] [hOcr, hLm] 0 5 hOcrW hLmW).1, ?_⟩
  refine (C5_ranking_stable_sort dist0 [] [hOcr, hLm] 0 5 hOcrW hLmW).2.2.1 ?_ ?_
  · show hLmW.confidence ≤ hOcrW.confidence
    norm_num [hOcrW, hLmW]
  · rw [hboost]

/-! ### Lemmas about the cache and the process_image skeleton -/

theorem cache_get_memSet {V : Type} (mem : MemCache V) (key : String) (v : V)
    (exp now : ℕ) (h : now < exp) :
    cache_get none (memSet mem key ⟨v, exp⟩) now key =
      (some v, memSet mem key ⟨v, exp⟩) := by
  simp [cache_get, memGetStep, memLookup, memSet, List.find?_cons, h]

theorem process_image_hit {hf : HashFns} {env : RunEnv} {req : GeolocationRequest}
    {content : List ℕ} {mem mem' : MemCache GeolocationResponse}
    {redis : Option (RedisConn GeolocationResponse)} {now : ℕ}
    {r : GeolocationResponse}
    (hcg : cache_get redis mem now (request_cache_key hf content req) =
      (some r, mem')) :
    process_image hf env req content mem redis now = (r, true, mem') := by
  unfold process_image
  dsimp only
  rw [hcg]

theorem process_image_miss_valid {hf : HashFns} {env : RunEnv}
    {req : GeolocationRequest} {content : List ℕ}
    {mem mem' : MemCache GeolocationResponse}
    {redis : Option (RedisConn GeolocationResponse)} {now : ℕ}
    (hcg : cache_get redis mem now (request_cache_key hf content req) =
      (none, mem'))
    (hvalid : env.valid = true) :
    process_image hf env req content mem redis now =
      (runResponse env req, false,
        (cache_set redis mem' now (some 3600) 3600
          (request_cache_key hf content req) (runResponse env req)).2) := by
  unfold process_image
  dsimp only
  rw [hcg]
  simp [hvalid]

theorem process_image_miss_invalid {hf : HashFns} {env : RunEnv}
    {req : GeolocationRequest} {content : List ℕ}
    {mem mem' : MemCache GeolocationResponse}
    {redis : Option (RedisConn GeolocationResponse)} {now : ℕ}
    (hcg : cache_get redis mem now (request_cache_key hf content req) =
      (none, mem'))
    (hvalid : env.valid = false) :
    process_image hf env req content mem redis now =
      (failureResponse env, false, mem') := by
  unfold process_image
  dsimp only
  rw [hcg]
  simp [hvalid]

theorem process_image_second (hf : HashFns) (env₁ env₂ : RunEnv)
    (req₁ req₂ : GeolocationRequest) (content : List ℕ)
    (mem : MemCache GeolocationResponse) (t₁ t₂ : ℕ)
    (hkey : request_cache_key hf content req₂ = request_cache_key hf content req₁)
    (hvalid : env₁.valid = true)
    (hmiss : (cache_get none mem t₁ (request_cache_key hf content req₁)).1 = none)
    (ht : t₂ < t₁ + 3600) :
    process_image hf env₂ req₂ content
        (process_image hf env₁ req₁ content mem none t₁).2.2 none t₂ =
      ((process_image hf env₁ req₁ content mem none t₁).1, true,
        (process_image hf env₁ req₁ content mem none t₁).2.2) := by
  rcases hcg : cache_get none mem t₁ (request_cache_key hf content req₁) with ⟨o, mem'⟩
  have ho : o = none := by rw [hcg] at hmiss; exact hmiss
  subst ho
  have h1 := process_image_miss_valid hcg hvalid
  have e0 : (process_image hf env₁ req₁ content mem none t₁).1 =
      runResponse env₁ req₁ := by rw [h1]
  have e1 : (process_image hf env₁ req₁ content mem none t₁).2.2 =
      memSet mem' (request_cache_key hf content req₁)
        ⟨runResponse env₁ req₁, t₁ + 3600⟩ := by
    rw [h1]
    simp [cache_set, effTtl]
  rw [e0, e1]
  refine process_image_hit ?_
  rw [hkey]
  exact cache_get_memSet mem' _ _ _ _ ht

theorem geocode_text_list_nil : geocode_text_list [] = [] := rfl

theorem collect_candidates_nil (mode : ProcessingMode) (va : Bool)
    (objs : List String) : collect_candidates mode va [] [] [] objs = [] := by
  cases mode <;> cases va <;>
    simp [collect_candidates, geocode_text_list_nil, process_objects]

theorem runResponse_empty {env : RunEnv} (req : GeolocationRequest)
    (hexif : env.exif = []) (hlm : env.landmarks = []) (hgeo : env.geoRaw = []) :
    runResponse env req =
      { success := true, hypotheses := [], best_guess := none,
        error_message := none } := by
  unfold runResponse
  rw [hexif, hlm, hgeo, collect_candidates_nil]
  simp [aggregate_pipeline, rank_hypotheses, filter_hypotheses,
    enhance_with_addresses]

theorem failure_message_nonempty (env : RunEnv) :
    ∃ msg, (failureResponse env).error_message = some msg ∧ msg ≠ "" := by
  refine ⟨_, rfl, ?_⟩
  intro h
  have hl := congrArg String.length h
  have he : String.append "Error processing image: Invalid image: " env.errMsg =
      "Error processing image: Invalid image: " ++ env.errMsg := rfl
  rw [he, String.length_append] at hl
  have h39 : ("Error processing image: Invalid image: ").length = 39 := rfl
  rw [h39] at hl
  simp at hl

/-! ### C6 — content-addressed cache idempotence -/

/-- Concrete pure hash/format functions for witnesses. -/
def hfW : HashFns :=
  { digestS := fun s => s, digestB := fun _ => "imagehash", ratStr := fun _ => "0.6" }

/-- A concrete run environment: validation succeeds, no provider output. -/
def envW : RunEnv :=
  { dist := dist0, visionAvailable := false, valid := true, errMsg := "",
    exif := [], landmarks := [], geoRaw := [], objs := [],
    reverse := fun _ _ => none }

/-- A concrete run environment whose image validation fails. -/
def envBad : RunEnv :=
  { dist := dist0, visionAvailable := false, valid := false,
    errMsg := "Unsupported format", exif := [], landmarks := [], geoRaw := [],
    objs := [], reverse := fun _ _ => none }

def reqW : GeolocationRequest :=
  { mode := .STANDARD, min_confidence := 3/5, max_results := 5,
    include_metadata := true, include_address := true }

def reqW2 : GeolocationRequest :=
  { mode := .STANDARD, min_confidence := 3/5, max_results := 2,
    include_metadata := true, include_address := false }

/-- C6: the cache fingerprint is a pure function of the image bytes, the
processing mode and the confidence floor (no filename or clock input), so
byte-identical content with the same request yields the identical key; and
after a first computing call, a second call with the same content and
request — whatever its providers return — is a cache hit returning the first
call's response, with the cache state unchanged. -/
theorem C6_cache_idempotence (hf : HashFns) (env₁ env₂ : RunEnv)
    (req : GeolocationRequest) (content content₂ : List ℕ)
    (mem : MemCache GeolocationResponse) (t₁ t₂ : ℕ)
    (hcontent : content₂ = content)
    (hvalid : env₁.valid = true)
    (hmiss : (cache_get none mem t₁ (request_cache_key hf content req)).1 = none)
    (ht : t₂ < t₁ + 3600) :
    request_cache_key hf content₂ req = request_cache_key hf content req ∧
    process_image hf env₂ req content₂
        (process_image hf env₁ req content mem none t₁).2.2 none t₂ =
      ((process_image hf env₁ req content mem none t₁).1, true,
        (process_image hf env₁ req content mem none t₁).2.2) := by
  subst hcontent
  exact ⟨rfl, process_image_second hf env₁ env₂ req req _ mem t₁ t₂ rfl
    hvalid hmiss ht⟩

/-- Witness for C6: an empty cache, two calls at times 0 and 1 on the same
bytes; the providers of the second call are irrelevant. -/
theorem C6_cache_idempotence_witness :
    (cache_get none ([] : MemCache GeolocationResponse) 0
        (request_cache_key hfW [1, 2, 3] reqW)).1 = none ∧
    process_image hfW envW reqW [1, 2, 3]
        (process_image hfW envW reqW [1, 2, 3] [] none 0).2.2 none 1 =
      ((process_image hfW envW reqW [1, 2, 3] [] none 0).1, true,
        (process_image hfW envW reqW [1, 2, 3] [] none 0).2.2) := by
  have hmiss : (cache_get none ([] : MemCache GeolocationResponse) 0
      (request_cache_key hfW [1, 2, 3] reqW)).1 = none := rfl
  exact ⟨hmiss, (C6_cache_idempotence hfW envW envW reqW [1, 2, 3] [1, 2, 3] []
    0 1 rfl rfl hmiss (by norm_num)).2⟩

/-! ### C10 — the fingerprint ignores max_results and include_address -/

/-- C10: the cache key reads only the mode and confidence floor of the
request, so a second call whose request agrees on those two fields — however
its `max_results` or `include_address` differ — maps to the identical key and
is served the first call's cached response (computed with the first call's
truncation and enrichment settings). -/
theorem C10_key_ignores_result_shaping (hf : HashFns) (env₁ env₂ : RunEnv)
    (req₁ req₂ : GeolocationRequest) (content : List ℕ)
    (mem : MemCache GeolocationResponse) (t₁ t₂ : ℕ)
    (hm : req₂.mode = req₁.mode)
    (hc : req₂.min_confidence = req₁.min_confidence)
    (hvalid : env₁.valid = true)
    (hmiss : (cache_get none mem t₁ (request_cache_key hf content req₁)).1 = none)
    (ht : t₂ < t₁ + 3600) :
    request_cache_key hf content req₂ = request_cache_key hf content req₁ ∧
    process_image hf env₂ req₂ content
        (process_image hf env₁ req₁ content mem none t₁).2.2 none t₂ =
      ((process_image hf env₁ req₁ content mem none t₁).1, true,
        (process_image hf env₁ req₁ content mem none t₁).2.2) := by
  have hkey : request_cache_key hf content req₂ = request_cache_key hf content req₁ := by
    unfold request_cache_key
    rw [hm, hc]
  exact ⟨hkey, process_image_second hf env₁ env₂ req₁ req₂ content mem t₁ t₂
    hkey hvalid hmiss ht⟩

/-- Witness for C10: the second request truncates to 2 results and skips
address enrichment, yet hits the first request's cached response. -/
theorem C10_key_ignores_result_shaping_witness :
    (cache_get none ([] : MemCache GeolocationResponse) 0
        (request_cache_key hfW [7, 7] reqW)).1 = none ∧
    reqW2.max_results ≠ reqW.max_results ∧
    reqW2.include_address ≠ reqW.include_address ∧
    request_cache_key hfW [7, 7] reqW2 = request_cache_key hfW [7, 7] reqW ∧
    process_image hfW envW reqW2 [7, 7]
        (process_image hfW envW reqW [7, 7] [] none 0).2.2 none 1 =
      ((process_image hfW envW reqW [7, 7] [] none 0).1, true,
        (process_image hfW envW reqW [7, 7] [] none 0).2.2) := by
  have hmiss : (cache_get none ([] : MemCache GeolocationResponse) 0
      (request_cache_key hfW [7, 7] reqW)).1 = none := rfl
  have h := C10_key_ignores_result_shaping hfW envW envW reqW reqW2 [7, 7] []
    0 1 rfl rfl rfl hmiss (by norm_num)
  exact ⟨hmiss, by norm_num [reqW, reqW2], by norm_num [reqW, reqW2], h.1, h.2⟩

/-! ### C7 — cache degradation when the durable tier fails -/

/-- A durable-tier connection whose every operation raises. -/
def redisRaising : RedisConn ℕ :=
  { rget := fun _ => .raises, rset := fun _ _ => .raises }

/-- C7 counterexample: with an unexpired entry 42 for "k" in the in-process
tier, a `get` whose redis call raises returns `None` — the in-process tier is
not consulted (the same state without redis serves the entry), and a `set`
whose redis call raises returns `False` without writing the in-process
tier — contradicting the claim that on a durable-tier error a get still
returns the in-process entry and a set still writes the in-process tier. -/
theorem C7_redis_error_counterexample :
    cache_get (some redisRaising) [("k", ⟨42, 100⟩)] 0 "k" =
      (none, [("k", ⟨42, 100⟩)]) ∧
    cache_get none [("k", (⟨42, 100⟩ : CacheEntry ℕ))] 0 "k" =
      (some 42, [("k", ⟨42, 100⟩)]) ∧
    cache_set (some redisRaising) ([] : MemCache ℕ) 0 (some 10) 3600 "k" 42 =
      (false, []) := by
  exact ⟨rfl, rfl, rfl⟩

/-- C7 amended: cache-backend errors never propagate (every operation
returns a value), but degradation to the in-process tier only happens when
the durable client is absent (startup connection failure): then a get serves
the unexpired in-process entry or misses, and a set writes the in-process
tier.  When the durable tier raises mid-operation, the error is swallowed:
the get returns `None` without consulting the in-process tier, and the set
returns `False` without writing it. -/
theorem C7_degraded_tiers {V : Type} (r : RedisConn V) (mem : MemCache V)
    (now ttlD : ℕ) (ttlArg : Option ℕ) (key : String) (v : V)
    (e : CacheEntry V) :
    (memLookup mem key = some e → now < e.expires_at →
      cache_get none mem now key = (some e.value, mem)) ∧
    (memLookup mem key = none → cache_get none mem now key = (none, mem)) ∧
    (cache_set none mem now ttlArg ttlD key v =
      (true, memSet mem key ⟨v, now + effTtl ttlArg ttlD⟩)) ∧
    (r.rget key = .raises → cache_get (some r) mem now key = (none, mem)) ∧
    (r.rset key v = .raises →
      cache_set (some r) mem now ttlArg ttlD key v = (false, mem)) := by
  refine ⟨?_, ?_, rfl, ?_, ?_⟩
  · intro hl hn
    simp [cache_get, memGetStep, hl, hn]
  · intro hl
    simp [cache_get, memGetStep, hl]
  · intro hr
    simp [cache_get, hr]
  · intro hr
    simp [cache_set, hr]

/-- Witness for C7 amended at the concrete state of the counterexample. -/
theorem C7_degraded_tiers_witness :
    memLookup [("k", (⟨42, 100⟩ : CacheEntry ℕ))] "k" = some ⟨42, 100⟩ ∧
    cache_get none [("k", (⟨42, 100⟩ : CacheEntry ℕ))] 0 "k" =
      (some 42, [("k", ⟨42, 100⟩)]) ∧
    cache_get (some redisRaising) [("k", ⟨42, 100⟩)] 0 "k" =
      (none, [("k", ⟨42, 100⟩)]) ∧
    cache_set (some redisRaising) ([] : MemCache ℕ) 0 (some 10) 3600 "k" 42 =
      (false, []) := by
  have h := C7_degraded_tiers redisRaising [("k", (⟨42, 100⟩ : CacheEntry ℕ))]
    0 3600 (some 10) "k" 42 ⟨42, 100⟩
  refine ⟨rfl, h.1 rfl (by norm_num), h.2.2.2.1 rfl, ?_⟩
  exact (C7_degraded_tiers redisRaising ([] : MemCache ℕ)
    0 3600 (some 10) "k" 42 ⟨42, 100⟩).2.2.2.2 rfl

/-! ### C8 — empty runs succeed, only validation failure fails -/

/-- C8: on a cache-missing run, successful image validation always yields
`success=true`; if additionally every provider contributed nothing the
response is exactly `success=true, hypotheses=[], best_guess=None`; and a
validation failure — the only `success=false` path of the embedding — yields
an empty hypothesis list and a non-empty error message. -/
theorem C8_empty_run_semantics (hf : HashFns) (env : RunEnv)
    (req : GeolocationRequest) (content : List ℕ)
    (mem : MemCache GeolocationResponse)
    (redis : Option (RedisConn GeolocationResponse)) (now : ℕ)
    (hmiss : (cache_get redis mem now (request_cache_key hf content req)).1 = none) :
    (env.valid = true →
      (process_image hf env req content mem redis now).1.success = true) ∧
    (env.valid = true → env.exif = [] → env.landmarks = [] → env.geoRaw = [] →
      (process_image hf env req content mem redis now).1 =
        { success := true, hypotheses := [], best_guess := none,
          error_message := none }) ∧
    (env.valid = false →
      (process_image hf env req content mem redis now).1.success = false ∧
      (process_image hf env req content mem redis now).1.hypotheses = [] ∧
      ∃ msg, (process_image hf env req content mem redis now).1.error_message =
        some msg ∧ msg ≠ "") := by
  rcases hcg : cache_get redis mem now (request_cache_key hf content req) with ⟨o, mem'⟩
  have ho : o = none := by rw [hcg] at hmiss; exact hmiss
  subst ho
  refine ⟨?_, ?_, ?_⟩
  · intro hvalid
    rw [process_image_miss_valid hcg hvalid]
    rfl
  · intro hvalid hexif hlm hgeo
    rw [process_image_miss_valid hcg hvalid]
    exact runResponse_empty req hexif hlm hgeo
  · intro hvalid
    rw [process_image_miss_invalid hcg hvalid]
    exact ⟨rfl, rfl, failure_message_nonempty env⟩

/-- Witness for C8: the all-providers-empty run returns the empty success
response, and the failing-validation run returns a failure with a non-empty
message. -/
theorem C8_empty_run_semantics_witness :
    (process_image hfW envW reqW [9] [] none 0).1 =
      { success := true, hypotheses := [], best_guess := none,
        error_message := none } ∧
    (process_image hfW envBad reqW [9] [] none 0).1.success = false ∧
    (∃ msg, (process_image hfW envBad reqW [9] [] none 0).1.error_message =
      some msg ∧ msg ≠ "") := by
  have h1 := (C8_empty_run_semantics hfW envW reqW [9] [] none 0 rfl).2.1
    rfl rfl rfl rfl
  have h2 := (C8_empty_run_semantics hfW envBad reqW [9] [] none 0 rfl).2.2 rfl
  exact ⟨h1, h2.1, h2.2.2⟩

end PhotoGeo
